import Mathlib

/-!
Shallow embedding of `src/opensubdiv/osd/glXFBEvaluator.cpp` (the OpenSubdiv
Osd OpenGL transform-feedback evaluator backend).

Every function of the source file is translated into a Lean function that
returns its C++ return value together with the list of GL commands (and
`Far::Error` reports) it issues, in source order.  Values produced by the GL
driver (generated object names, link results, info logs, uniform locations,
previously bound objects) enter as explicit oracle arguments.  GLuint handles
are `Nat`; C `int` values that may be negative (batch indices) are `Int`;
the buffer-layout descriptor fields (`offset`/`length`/`stride`), C `int`s
holding nonnegative layout metrics, are `Nat`, so `%` agrees with C `%` on the
values used.  `sizeof(float) = sizeof(int) = 4`.
-/

namespace OsdGLXFB

/-! ### GL enumerant values (from the OpenGL headers) -/

def GL_POINTS : Nat := 0x0000
def GL_UNSIGNED_INT : Nat := 0x1405
def GL_FLOAT : Nat := 0x1406
def GL_TEXTURE0 : Nat := 0x84C0
def GL_ARRAY_BUFFER : Nat := 0x8892
def GL_ARRAY_BUFFER_BINDING : Nat := 0x8894
def GL_STATIC_DRAW : Nat := 0x88E4
def GL_R32F : Nat := 0x822E
def GL_R32I : Nat := 0x8235
def GL_R32UI : Nat := 0x8236
def GL_VERTEX_SHADER : Nat := 0x8B31
def GL_LINK_STATUS : Nat := 0x8B82
def GL_RASTERIZER_DISCARD : Nat := 0x8C89
def GL_INTERLEAVED_ATTRIBS : Nat := 0x8C8C
def GL_TRANSFORM_FEEDBACK_BUFFER : Nat := 0x8C8E
def GL_TEXTURE_BUFFER : Nat := 0x8C2A
def GL_TEXTURE_BINDING_BUFFER : Nat := 0x8C2C

/-- Modelled from the spec: the `Far` error codes of `far/error.h` (an external
collaborator of this file; only `FAR_RUNTIME_ERROR` is used here). -/
inductive FarErrorType where
  | FAR_NO_ERROR
  | FAR_FATAL_ERROR
  | FAR_INTERNAL_CODING_ERROR
  | FAR_CODING_ERROR
  | FAR_RUNTIME_ERROR
  deriving DecidableEq, Repr

/-- One observable action of the source file: a GL command, recorded with the
arguments that the C++ code passes, or a `Far::Error` report.  Data pointers
are recorded as the lists they point at; `sizei`/`intptr` arguments that the
code computes from nonnegative quantities are `Nat`, genuinely signed ones are
`Int`. -/
inductive GLEvent where
  | GenBuffers (n : Nat) (buffer : Nat)
  | DeleteBuffers (n : Nat) (buffer : Nat)
  | GenTextures (n : Nat) (texture : Nat)
  | DeleteTextures (n : Nat) (texture : Nat)
  | GetIntegerv (pname : Nat) (result : Nat)
  | BindBuffer (target : Nat) (buffer : Nat)
  | BufferData (target : Nat) (size : Nat) (data : List Nat) (usage : Nat)
  | BindTexture (target : Nat) (texture : Nat)
  | TexBuffer (target : Nat) (format : Nat) (buffer : Nat)
  | CreateProgram (program : Nat)
  | CreateShader (shaderType : Nat) (shader : Nat)
  | ShaderSource (shader : Nat) (count : Nat) (sources : List String)
  | CompileShader (shader : Nat)
  | AttachShader (program : Nat) (shader : Nat)
  | TransformFeedbackVaryings (program : Nat) (count : Nat)
      (varyings : List String) (bufferMode : Nat)
  | LinkProgram (program : Nat)
  | GetProgramiv (program : Nat) (pname : Nat)
  | GetShaderInfoLog (shader : Nat)
  | GetProgramInfoLog (program : Nat)
  | DeleteProgram (program : Nat)
  | DeleteShader (shader : Nat)
  | GetUniformLocation (program : Nat) (name : String)
  | FarError (err : FarErrorType) (message : String)
  | Finish
  | GenVertexArrays (n : Nat) (vao : Nat)
  | DeleteVertexArrays (n : Nat) (vao : Nat)
  | BindVertexArray (vao : Nat)
  | Enable (cap : Nat)
  | Disable (cap : Nat)
  | UseProgram (program : Nat)
  | ActiveTexture (texUnitEnum : Nat)
  | Uniform1i (location : Int) (v0 : Int)
  | Uniform4iv (location : Int) (count : Nat) (data : List (Int × Int × Int × Int))
  | BindBufferRange (target : Nat) (index : Nat) (buffer : Nat)
      (offset : Nat) (size : Nat)
  | BeginTransformFeedback (primitiveMode : Nat)
  | DrawArrays (mode : Nat) (first : Int) (count : Int)
  | EndTransformFeedback
  | EnableVertexAttribArray (index : Nat)
  | DisableVertexAttribArray (index : Nat)
  | VertexAttribIPointer (index : Nat) (size : Nat) (type : Nat)
      (stride : Nat) (pointer : Nat)
  | VertexAttribPointer (index : Nat) (size : Nat) (type : Nat)
      (normalized : Bool) (stride : Nat) (pointer : Nat)
  deriving DecidableEq, Repr

/-- Modelled from the spec: `Osd::VertexBufferDescriptor`
(`osd/vertexDescriptor.h`, not under the sources here) — the
source/destination buffer layout: `int offset, length, stride`, nonnegative
layout metrics, embedded as `Nat`. -/
structure VertexBufferDescriptor where
  offset : Nat
  length : Nat
  stride : Nat
  deriving DecidableEq, Repr

/-- Modelled from the spec: the opaque `Far::StencilTable` collaborator.  The
evaluator reads its stencil count and its four flat vectors (sizes, offsets,
control indices, weights).  Elements are 32-bit values, recorded as raw
words. -/
structure StencilTable where
  numStencils : Int
  sizes : List Nat
  offsets : List Nat
  controlIndices : List Nat
  weights : List Nat
  deriving DecidableEq, Repr

def StencilTable.GetNumStencils (st : StencilTable) : Int := st.numStencils
def StencilTable.GetSizes (st : StencilTable) : List Nat := st.sizes
def StencilTable.GetOffsets (st : StencilTable) : List Nat := st.offsets
def StencilTable.GetControlIndices (st : StencilTable) : List Nat := st.controlIndices
def StencilTable.GetWeights (st : StencilTable) : List Nat := st.weights

/-- The driver's response to `glLinkProgram`: the `GL_LINK_STATUS` answered by
`glGetProgramiv`, and the info logs answered by `glGetShaderInfoLog` /
`glGetProgramInfoLog`. -/
structure LinkResult where
  linked : Bool
  shaderLog : String
  programLog : String
  deriving DecidableEq, Repr

/-- The `_StencilKernel` member struct of `GLXFBEvaluator` (program handle and
cached uniform locations). -/
structure StencilKernelState where
  program : Nat
  uniformSrcBufferTexture : Int
  uniformSrcOffset : Int
  uniformSizesTexture : Int
  uniformOffsetsTexture : Int
  uniformIndicesTexture : Int
  uniformWeightsTexture : Int
  uniformStart : Int
  uniformEnd : Int
  deriving DecidableEq, Repr

/-- The `_PatchKernel` member struct of `GLXFBEvaluator`. -/
structure PatchKernelState where
  program : Nat
  uniformSrcBufferTexture : Int
  uniformSrcOffset : Int
  uniformPatchArray : Int
  uniformPatchParamTexture : Int
  uniformPatchIndexTexture : Int
  deriving DecidableEq, Repr

/-- The member state of `Osd::GLXFBEvaluator`. -/
structure GLXFBEvaluator where
  _stencilKernel : StencilKernelState
  _patchKernel : PatchKernelState
  _srcBufferTexture : Nat
  deriving DecidableEq, Repr

/-- The member state of `Osd::GLStencilTableTBO` (four texture handles and the
stencil count). -/
structure GLStencilTableTBO where
  _numStencils : Int
  _sizes : Nat
  _offsets : Nat
  _indices : Nat
  _weights : Nat
  deriving DecidableEq, Repr

/-- One member of `Osd::PatchArrayVector`: a four-int struct uploaded with
`glUniform4iv`. -/
def PatchArray := Int × Int × Int × Int

/-- Modelled from the spec: the fixed embedded XFB kernel source
(`glslXFBKernel.gen.h` is generated at build time and is not among the
sources).  The spec calls it "the fixed embedded XFB kernel source"; its text
is a fixed constant whose content no claim depends on. -/
def shaderSource : String := "<contents of glslXFBKernel.gen.h>"

/-! ### compileKernel (glXFBEvaluator.cpp lines 128-207) -/

/-- The transform-feedback varying names that `compileKernel` collects into
`outputs`: the three `for` loops of lines 167-177.  A C loop `for (int i = a;
i < b; ++i)` runs `(b - a).toNat` times, hence the truncated subtraction. -/
def tfVaryingOutputs (dstDesc : VertexBufferDescriptor) : List String :=
  let primvarOffset := dstDesc.offset % dstDesc.stride
  List.replicate primvarOffset "gl_SkipComponents1"
    ++ (List.range dstDesc.length).map
        (fun i => "outVertexBuffer[" ++ toString i ++ "]")
    ++ List.replicate (dstDesc.stride - (primvarOffset + dstDesc.length))
        "gl_SkipComponents1"

/-- The static `compileKernel(srcDesc, dstDesc, kernelDefine)`: builds the define block,
hands the three source strings to the compiler, declares the interleaved
transform-feedback varyings, links, and on link failure forwards both info
logs as `FAR_RUNTIME_ERROR` and deletes the program, returning 0.  `program`
and `shader` are the names returned by `glCreateProgram`/`glCreateShader`;
`res` is the driver's link result. -/
def compileKernel (srcDesc dstDesc : VertexBufferDescriptor)
    (kernelDefine : String) (program shader : Nat) (res : LinkResult) :
    Nat × List GLEvent :=
  let defineStr : String :=
    "#define LENGTH " ++ toString srcDesc.length ++ "\n"
      ++ "#define SRC_STRIDE " ++ toString srcDesc.stride ++ "\n"
      ++ kernelDefine ++ "\n"
  let outputs := tfVaryingOutputs dstDesc
  let head : List GLEvent :=
    [GLEvent.CreateProgram program,
     GLEvent.CreateShader GL_VERTEX_SHADER shader,
     GLEvent.ShaderSource shader 3 ["#version 410\n", defineStr, shaderSource],
     GLEvent.CompileShader shader,
     GLEvent.AttachShader program shader,
     GLEvent.TransformFeedbackVaryings program outputs.length outputs
       GL_INTERLEAVED_ATTRIBS,
     GLEvent.LinkProgram program,
     GLEvent.GetProgramiv program GL_LINK_STATUS]
  if res.linked then
    (program, head ++ [GLEvent.DeleteShader shader])
  else
    (0, head
      ++ [GLEvent.GetShaderInfoLog shader,
          GLEvent.FarError FarErrorType.FAR_RUNTIME_ERROR res.shaderLog,
          GLEvent.GetProgramInfoLog program,
          GLEvent.FarError FarErrorType.FAR_RUNTIME_ERROR res.programLog,
          GLEvent.DeleteProgram program]
      ++ [GLEvent.DeleteShader shader])

/-- Driver responses consumed by one `GLXFBEvaluator::Compile` call: object
names and link results for the two `compileKernel` calls, the uniform-location
table, and the texture name generated for the input buffer. -/
structure CompileOracle where
  program1 : Nat
  shader1 : Nat
  link1 : LinkResult
  program2 : Nat
  shader2 : Nat
  link2 : LinkResult
  loc : Nat → String → Int
  newSrcBufferTexture : Nat

/-- Member `GLXFBEvaluator::Compile` (lines 209-268): compiles the stencil kernel,
then the patch kernel, caching uniform locations, deleting any previously held
programs first; creates the input-buffer texture if absent.  Returns the
updated member state, the C++ return value, and the trace. -/
def GLXFBEvaluator.Compile (ev : GLXFBEvaluator)
    (srcDesc dstDesc : VertexBufferDescriptor) (o : CompileOracle) :
    GLXFBEvaluator × Bool × List GLEvent :=
  let tDelS : List GLEvent :=
    if ev._stencilKernel.program ≠ 0 then
      [GLEvent.DeleteProgram ev._stencilKernel.program] else []
  let r1 := compileKernel srcDesc dstDesc
    "#define OPENSUBDIV_GLSL_XFB_KERNEL_EVAL_STENCILS"
    o.program1 o.shader1 o.link1
  if r1.fst = 0 then
    ({ ev with _stencilKernel := { ev._stencilKernel with program := 0 } },
     false, tDelS ++ r1.snd)
  else
    let sk : StencilKernelState :=
      { program := r1.fst,
        uniformSrcBufferTexture := o.loc r1.fst "vertexBuffer",
        uniformSrcOffset := o.loc r1.fst "srcOffset",
        uniformSizesTexture := o.loc r1.fst "sizes",
        uniformOffsetsTexture := o.loc r1.fst "offsets",
        uniformIndicesTexture := o.loc r1.fst "indices",
        uniformWeightsTexture := o.loc r1.fst "weights",
        uniformStart := o.loc r1.fst "batchStart",
        uniformEnd := o.loc r1.fst "batchEnd" }
    let tLocS : List GLEvent :=
      [GLEvent.GetUniformLocation r1.fst "vertexBuffer",
       GLEvent.GetUniformLocation r1.fst "srcOffset",
       GLEvent.GetUniformLocation r1.fst "sizes",
       GLEvent.GetUniformLocation r1.fst "offsets",
       GLEvent.GetUniformLocation r1.fst "indices",
       GLEvent.GetUniformLocation r1.fst "weights",
       GLEvent.GetUniformLocation r1.fst "batchStart",
       GLEvent.GetUniformLocation r1.fst "batchEnd"]
    let tDelP : List GLEvent :=
      if ev._patchKernel.program ≠ 0 then
        [GLEvent.DeleteProgram ev._patchKernel.program] else []
    let r2 := compileKernel srcDesc dstDesc
      "#define OPENSUBDIV_GLSL_XFB_KERNEL_EVAL_PATCHES"
      o.program2 o.shader2 o.link2
    if r2.fst = 0 then
      ({ ev with _stencilKernel := sk,
                 _patchKernel := { ev._patchKernel with program := 0 } },
       false, tDelS ++ r1.snd ++ tLocS ++ tDelP ++ r2.snd)
    else
      let pk : PatchKernelState :=
        { program := r2.fst,
          uniformSrcBufferTexture := o.loc r2.fst "vertexBuffer",
          uniformSrcOffset := o.loc r2.fst "srcOffset",
          uniformPatchArray := o.loc r2.fst "patchArray",
          uniformPatchParamTexture := o.loc r2.fst "patchParamBuffer",
          uniformPatchIndexTexture := o.loc r2.fst "patchIndexBuffer" }
      let tLocP : List GLEvent :=
        [GLEvent.GetUniformLocation r2.fst "vertexBuffer",
         GLEvent.GetUniformLocation r2.fst "srcOffset",
         GLEvent.GetUniformLocation r2.fst "patchArray",
         GLEvent.GetUniformLocation r2.fst "patchParamBuffer",
         GLEvent.GetUniformLocation r2.fst "patchIndexBuffer"]
      let tGen : List GLEvent :=
        if ev._srcBufferTexture = 0 then
          [GLEvent.GenTextures 1 o.newSrcBufferTexture] else []
      let newTex : Nat :=
        if ev._srcBufferTexture = 0 then o.newSrcBufferTexture
        else ev._srcBufferTexture
      ({ _stencilKernel := sk, _patchKernel := pk, _srcBufferTexture := newTex },
       true, tDelS ++ r1.snd ++ tLocS ++ tDelP ++ r2.snd ++ tLocP ++ tGen)

/-- Static `GLXFBEvaluator::Synchronize(void *kernel)` (lines 270-276): ignores its
argument and issues a blocking `glFinish`. -/
def GLXFBEvaluator.Synchronize (kernel : Nat) : List GLEvent :=
  [GLEvent.Finish]

/-- The static helper `bindTexture(sampler, texture, unit)` (lines 278-287):
a no-op when the cached uniform location is -1, else sets the sampler uniform,
binds the texture on `GL_TEXTURE0 + unit`, and returns to `GL_TEXTURE0`. -/
def bindTexture (sampler : Int) (texture : Nat) (unit : Nat) : List GLEvent :=
  if sampler = -1 then []
  else
    [GLEvent.Uniform1i sampler (unit : Int),
     GLEvent.ActiveTexture (GL_TEXTURE0 + unit),
     GLEvent.BindTexture GL_TEXTURE_BUFFER texture,
     GLEvent.ActiveTexture GL_TEXTURE0]

/-- The GL commands of the non-early-return path of
`GLXFBEvaluator::EvalStencils` (lines 306-388), in source order.  `vao` is
the name produced by `glGenVertexArrays`; the `for (int i = 0; i < 5; ++i)`
unbind loop is unrolled.  `count = end - start` is positive on this path. -/
def evalStencilsTrace (ev : GLXFBEvaluator)
    (srcBuffer : Nat) (srcDesc : VertexBufferDescriptor)
    (dstBuffer : Nat) (dstDesc : VertexBufferDescriptor)
    (sizesTexture offsetsTexture indicesTexture weightsTexture : Nat)
    (start end_ : Int) (vao : Nat) : List GLEvent :=
  let count : Int := end_ - start
  let dstBufferBindOffset : Nat :=
    dstDesc.offset - dstDesc.offset % dstDesc.stride
  [GLEvent.GenVertexArrays 1 vao,
   GLEvent.BindVertexArray vao,
   GLEvent.Enable GL_RASTERIZER_DISCARD,
   GLEvent.UseProgram ev._stencilKernel.program,
   GLEvent.BindTexture GL_TEXTURE_BUFFER ev._srcBufferTexture,
   GLEvent.TexBuffer GL_TEXTURE_BUFFER GL_R32F srcBuffer,
   GLEvent.BindTexture GL_TEXTURE_BUFFER 0]
  ++ bindTexture ev._stencilKernel.uniformSrcBufferTexture ev._srcBufferTexture 0
  ++ bindTexture ev._stencilKernel.uniformSizesTexture sizesTexture 1
  ++ bindTexture ev._stencilKernel.uniformOffsetsTexture offsetsTexture 2
  ++ bindTexture ev._stencilKernel.uniformIndicesTexture indicesTexture 3
  ++ bindTexture ev._stencilKernel.uniformWeightsTexture weightsTexture 4
  ++ [GLEvent.Uniform1i ev._stencilKernel.uniformStart start,
      GLEvent.Uniform1i ev._stencilKernel.uniformEnd end_,
      GLEvent.Uniform1i ev._stencilKernel.uniformSrcOffset (srcDesc.offset : Int),
      GLEvent.BindBufferRange GL_TRANSFORM_FEEDBACK_BUFFER 0 dstBuffer
        (dstBufferBindOffset * 4) (count.toNat * dstDesc.stride * 4),
      GLEvent.BeginTransformFeedback GL_POINTS,
      GLEvent.DrawArrays GL_POINTS 0 count,
      GLEvent.EndTransformFeedback,
      GLEvent.BindBuffer GL_TRANSFORM_FEEDBACK_BUFFER 0,
      GLEvent.ActiveTexture (GL_TEXTURE0 + 0),
      GLEvent.BindTexture GL_TEXTURE_BUFFER 0,
      GLEvent.ActiveTexture (GL_TEXTURE0 + 1),
      GLEvent.BindTexture GL_TEXTURE_BUFFER 0,
      GLEvent.ActiveTexture (GL_TEXTURE0 + 2),
      GLEvent.BindTexture GL_TEXTURE_BUFFER 0,
      GLEvent.ActiveTexture (GL_TEXTURE0 + 3),
      GLEvent.BindTexture GL_TEXTURE_BUFFER 0,
      GLEvent.ActiveTexture (GL_TEXTURE0 + 4),
      GLEvent.BindTexture GL_TEXTURE_BUFFER 0,
      GLEvent.Disable GL_RASTERIZER_DISCARD,
      GLEvent.UseProgram 0,
      GLEvent.ActiveTexture GL_TEXTURE0,
      GLEvent.BindVertexArray 0,
      GLEvent.DeleteVertexArrays 1 vao]

/-- Member `GLXFBEvaluator::EvalStencils` (lines 289-390): returns false if no
stencil kernel program is present; returns true at once for an empty batch;
otherwise issues `evalStencilsTrace` and returns true. -/
def GLXFBEvaluator.EvalStencils (ev : GLXFBEvaluator)
    (srcBuffer : Nat) (srcDesc : VertexBufferDescriptor)
    (dstBuffer : Nat) (dstDesc : VertexBufferDescriptor)
    (sizesTexture offsetsTexture indicesTexture weightsTexture : Nat)
    (start end_ : Int) (vao : Nat) : Bool × List GLEvent :=
  if ev._stencilKernel.program = 0 then (false, [])
  else
    let count : Int := end_ - start
    if count ≤ 0 then (true, [])
    else
      (true, evalStencilsTrace ev srcBuffer srcDesc dstBuffer dstDesc
        sizesTexture offsetsTexture indicesTexture weightsTexture
        start end_ vao)

/-- The GL commands of the main path of `GLXFBEvaluator::EvalPatches`
(lines 403-476), in source order, including the derivative-request error
report of lines 405-408.  The `for (int i = 0; i < 3; ++i)` unbind loop is
unrolled; `stride = sizeof(int) * 5 = 20`. -/
def evalPatchesTrace (ev : GLXFBEvaluator)
    (srcBuffer : Nat) (srcDesc : VertexBufferDescriptor)
    (dstBuffer : Nat) (dstDesc : VertexBufferDescriptor)
    (duBuffer dvBuffer : Nat)
    (numPatchCoords : Int) (patchCoordsBuffer : Nat)
    (patchArrays : List PatchArray)
    (patchIndexTexture patchParamTexture : Nat) (vao : Nat) : List GLEvent :=
  let dstBufferBindOffset : Nat :=
    dstDesc.offset - dstDesc.offset % dstDesc.stride
  (if duBuffer ≠ 0 ∨ dvBuffer ≠ 0 then
    [GLEvent.FarError FarErrorType.FAR_RUNTIME_ERROR
      "GLXFBEvaluator doesn't support derivative evaluation yet.\n"]
   else [])
  ++ [GLEvent.GenVertexArrays 1 vao,
      GLEvent.BindVertexArray vao,
      GLEvent.Enable GL_RASTERIZER_DISCARD,
      GLEvent.UseProgram ev._patchKernel.program,
      GLEvent.BindTexture GL_TEXTURE_BUFFER ev._srcBufferTexture,
      GLEvent.TexBuffer GL_TEXTURE_BUFFER GL_R32F srcBuffer,
      GLEvent.BindTexture GL_TEXTURE_BUFFER 0]
  ++ bindTexture ev._patchKernel.uniformSrcBufferTexture ev._srcBufferTexture 0
  ++ bindTexture ev._patchKernel.uniformPatchParamTexture patchParamTexture 1
  ++ bindTexture ev._patchKernel.uniformPatchIndexTexture patchIndexTexture 2
  ++ [GLEvent.Uniform4iv ev._patchKernel.uniformPatchArray
        patchArrays.length patchArrays,
      GLEvent.Uniform1i ev._patchKernel.uniformSrcOffset (srcDesc.offset : Int),
      GLEvent.EnableVertexAttribArray 0,
      GLEvent.EnableVertexAttribArray 1,
      GLEvent.BindBuffer GL_ARRAY_BUFFER patchCoordsBuffer,
      GLEvent.VertexAttribIPointer 0 3 GL_UNSIGNED_INT 20 0,
      GLEvent.VertexAttribPointer 1 2 GL_FLOAT false 20 12,
      GLEvent.BindBufferRange GL_TRANSFORM_FEEDBACK_BUFFER 0 dstBuffer
        (dstBufferBindOffset * 4) (numPatchCoords.toNat * dstDesc.stride * 4),
      GLEvent.BeginTransformFeedback GL_POINTS,
      GLEvent.DrawArrays GL_POINTS 0 numPatchCoords,
      GLEvent.EndTransformFeedback,
      GLEvent.BindBuffer GL_TRANSFORM_FEEDBACK_BUFFER 0,
      GLEvent.ActiveTexture (GL_TEXTURE0 + 0),
      GLEvent.BindTexture GL_TEXTURE_BUFFER 0,
      GLEvent.ActiveTexture (GL_TEXTURE0 + 1),
      GLEvent.BindTexture GL_TEXTURE_BUFFER 0,
      GLEvent.ActiveTexture (GL_TEXTURE0 + 2),
      GLEvent.BindTexture GL_TEXTURE_BUFFER 0,
      GLEvent.Disable GL_RASTERIZER_DISCARD,
      GLEvent.UseProgram 0,
      GLEvent.ActiveTexture GL_TEXTURE0,
      GLEvent.DisableVertexAttribArray 0,
      GLEvent.DisableVertexAttribArray 1,
      GLEvent.BindVertexArray 0,
      GLEvent.DeleteVertexArrays 1 vao]

/-- Member `GLXFBEvaluator::EvalPatches` (lines 392-477): returns false if no patch
kernel program is present; otherwise (reporting a runtime error first when a
derivative buffer was requested) issues `evalPatchesTrace` and returns
true. -/
def GLXFBEvaluator.EvalPatches (ev : GLXFBEvaluator)
    (srcBuffer : Nat) (srcDesc : VertexBufferDescriptor)
    (dstBuffer : Nat) (dstDesc : VertexBufferDescriptor)
    (duBuffer dvBuffer : Nat)
    (numPatchCoords : Int) (patchCoordsBuffer : Nat)
    (patchArrays : List PatchArray)
    (patchIndexTexture patchParamTexture : Nat) (vao : Nat) :
    Bool × List GLEvent :=
  if ev._patchKernel.program = 0 then (false, [])
  else
    (true, evalPatchesTrace ev srcBuffer srcDesc dstBuffer dstDesc
      duBuffer dvBuffer numPatchCoords patchCoordsBuffer patchArrays
      patchIndexTexture patchParamTexture vao)

/-! ### GLStencilTableTBO (lines 48-106) -/

/-- Driver-generated names consumed by one `createGLTextureBuffer` call, and
the previously bound objects answered by `glGetIntegerv`. -/
structure BufOracle where
  buffer : Nat
  devicePtr : Nat
  prevArrayBuffer : Nat
  prevTextureBuffer : Nat
  deriving DecidableEq, Repr

/-- Template `createGLTextureBuffer<T>(src, type)` (lines 48-83), non-DSA path (the
`GL_EXT_direct_state_access` branch differs only in which entry points carry
the identical data): uploads `src` into a fresh buffer (size = 4 bytes per
element), attaches it to a fresh `GL_TEXTURE_BUFFER` texture with the given
format, restores the previous bindings and deletes the buffer name, returning
the texture name. -/
def createGLTextureBuffer (src : List Nat) (type : Nat) (o : BufOracle) :
    Nat × List GLEvent :=
  (o.devicePtr,
   [GLEvent.GenBuffers 1 o.buffer,
    GLEvent.GenTextures 1 o.devicePtr,
    GLEvent.GetIntegerv GL_ARRAY_BUFFER_BINDING o.prevArrayBuffer,
    GLEvent.BindBuffer GL_ARRAY_BUFFER o.buffer,
    GLEvent.BufferData GL_ARRAY_BUFFER (src.length * 4) src GL_STATIC_DRAW,
    GLEvent.BindBuffer GL_ARRAY_BUFFER o.prevArrayBuffer,
    GLEvent.GetIntegerv GL_TEXTURE_BINDING_BUFFER o.prevTextureBuffer,
    GLEvent.BindTexture GL_TEXTURE_BUFFER o.devicePtr,
    GLEvent.TexBuffer GL_TEXTURE_BUFFER type o.buffer,
    GLEvent.BindTexture GL_TEXTURE_BUFFER o.prevTextureBuffer,
    GLEvent.DeleteBuffers 1 o.buffer])

/-- The `GLStencilTableTBO` constructor (lines 85-99): for a table with
stencils, uploads sizes (`GL_R32UI`), offsets (`GL_R32I`), control indices
(`GL_R32I`) and weights (`GL_R32F`) as texture buffers; otherwise zeroes the
four handles. -/
def mkGLStencilTableTBO (stencilTable : StencilTable)
    (o1 o2 o3 o4 : BufOracle) : GLStencilTableTBO × List GLEvent :=
  let numStencils := stencilTable.GetNumStencils
  if numStencils > 0 then
    let r1 := createGLTextureBuffer stencilTable.GetSizes GL_R32UI o1
    let r2 := createGLTextureBuffer stencilTable.GetOffsets GL_R32I o2
    let r3 := createGLTextureBuffer stencilTable.GetControlIndices GL_R32I o3
    let r4 := createGLTextureBuffer stencilTable.GetWeights GL_R32F o4
    ({ _numStencils := numStencils, _sizes := r1.fst, _offsets := r2.fst,
       _indices := r3.fst, _weights := r4.fst },
     r1.snd ++ r2.snd ++ r3.snd ++ r4.snd)
  else
    ({ _numStencils := numStencils, _sizes := 0, _offsets := 0,
       _indices := 0, _weights := 0 }, [])

/-- The `GLStencilTableTBO` destructor (lines 101-106): deletes each of the
four texture handles that is nonzero, in source order (sizes, offsets,
weights, indices). -/
def destroyGLStencilTableTBO (t : GLStencilTableTBO) : List GLEvent :=
  (if t._sizes ≠ 0 then [GLEvent.DeleteTextures 1 t._sizes] else [])
    ++ (if t._offsets ≠ 0 then [GLEvent.DeleteTextures 1 t._offsets] else [])
    ++ (if t._weights ≠ 0 then [GLEvent.DeleteTextures 1 t._weights] else [])
    ++ (if t._indices ≠ 0 then [GLEvent.DeleteTextures 1 t._indices] else [])

/-! ### Trace observations -/

/-- The `Far::Error` reports of a trace, in order. -/
def farErrors (t : List GLEvent) : List (FarErrorType × String) :=
  t.filterMap fun e =>
    match e with
    | GLEvent.FarError err msg => some (err, msg)
    | _ => none

/-- The draw calls of a trace: (mode, first, count). -/
def drawCalls (t : List GLEvent) : List (Nat × Int × Int) :=
  t.filterMap fun e =>
    match e with
    | GLEvent.DrawArrays mode first count => some (mode, first, count)
    | _ => none

/-- The `glBindBufferRange` calls of a trace:
(target, index, buffer, byte offset, byte size). -/
def bufferRangeBinds (t : List GLEvent) : List (Nat × Nat × Nat × Nat × Nat) :=
  t.filterMap fun e =>
    match e with
    | GLEvent.BindBufferRange tgt idx buf off sz => some (tgt, idx, buf, off, sz)
    | _ => none

/-- The `glShaderSource` calls of a trace: (shader, count, source strings). -/
def shaderSourceCalls (t : List GLEvent) : List (Nat × Nat × List String) :=
  t.filterMap fun e =>
    match e with
    | GLEvent.ShaderSource sh c srcs => some (sh, c, srcs)
    | _ => none

/-- The `glTransformFeedbackVaryings` calls of a trace:
(program, count, varyings, buffer mode). -/
def tfvCalls (t : List GLEvent) : List (Nat × Nat × List String × Nat) :=
  t.filterMap fun e =>
    match e with
    | GLEvent.TransformFeedbackVaryings p c vs m => some (p, c, vs, m)
    | _ => none

/-- The `glBufferData` uploads of a trace: (byte size, data). -/
def bufferUploads (t : List GLEvent) : List (Nat × List Nat) :=
  t.filterMap fun e =>
    match e with
    | GLEvent.BufferData _ sz data _ => some (sz, data)
    | _ => none

/-- The `glTexBuffer` attachments of a trace: the internal formats, in
order. -/
def texBufferFormats (t : List GLEvent) : List Nat :=
  t.filterMap fun e =>
    match e with
    | GLEvent.TexBuffer _ fmt _ => some fmt
    | _ => none

/-- The texture names passed to `glDeleteTextures` in a trace. -/
def deletedTextures (t : List GLEvent) : List Nat :=
  t.filterMap fun e =>
    match e with
    | GLEvent.DeleteTextures _ tex => some tex
    | _ => none

/-! ### A small GL state machine, for the binding-restoration claim -/

/-- The ambient GL context state the traces touch: the bindings and enables
the source file sets, plus the set of live vertex-array names.
`activeUnit` is the texture unit index (`GL_TEXTURE0` sets it to 0);
`textureBufferBinding u` is the `GL_TEXTURE_BUFFER` binding of unit `u`. -/
structure GLState where
  currentProgram : Nat
  vaoBinding : Nat
  activeUnit : Nat
  textureBufferBinding : Nat → Nat
  tfBufferBinding : Nat
  arrayBufferBinding : Nat
  rasterizerDiscard : Bool
  liveVAOs : List Nat

/-- How one recorded GL command transforms the context state (per the GL
specification; commands without an effect on the tracked state leave it
unchanged). -/
def applyEvent (s : GLState) (e : GLEvent) : GLState :=
  match e with
  | GLEvent.Enable cap =>
      if cap = GL_RASTERIZER_DISCARD then { s with rasterizerDiscard := true }
      else s
  | GLEvent.Disable cap =>
      if cap = GL_RASTERIZER_DISCARD then { s with rasterizerDiscard := false }
      else s
  | GLEvent.UseProgram p => { s with currentProgram := p }
  | GLEvent.BindVertexArray v => { s with vaoBinding := v }
  | GLEvent.GenVertexArrays _ v => { s with liveVAOs := v :: s.liveVAOs }
  | GLEvent.DeleteVertexArrays _ v => { s with liveVAOs := s.liveVAOs.erase v }
  | GLEvent.ActiveTexture e => { s with activeUnit := e - GL_TEXTURE0 }
  | GLEvent.BindTexture tgt tex =>
      if tgt = GL_TEXTURE_BUFFER then
        { s with textureBufferBinding :=
            fun u => if u = s.activeUnit then tex else s.textureBufferBinding u }
      else s
  | GLEvent.BindBuffer tgt b =>
      if tgt = GL_TRANSFORM_FEEDBACK_BUFFER then { s with tfBufferBinding := b }
      else if tgt = GL_ARRAY_BUFFER then { s with arrayBufferBinding := b }
      else s
  | GLEvent.BindBufferRange tgt _ b _ _ =>
      if tgt = GL_TRANSFORM_FEEDBACK_BUFFER then { s with tfBufferBinding := b }
      else s
  | _ => s

/-- Run a trace over the context state. -/
def applyTrace : List GLEvent → GLState → GLState
  | [], s => s
  | e :: t, s => applyTrace t (applyEvent s e)

/-! ### Generic trace lemmas -/

theorem applyTrace_append (t1 t2 : List GLEvent) (s : GLState) :
    applyTrace (t1 ++ t2) s = applyTrace t2 (applyTrace t1 s) := by
  induction t1 generalizing s with
  | nil => rfl
  | cons e t ih => simp [applyTrace, ih]

theorem farErrors_append (a b : List GLEvent) :
    farErrors (a ++ b) = farErrors a ++ farErrors b := by
  simp [farErrors]

theorem drawCalls_append (a b : List GLEvent) :
    drawCalls (a ++ b) = drawCalls a ++ drawCalls b := by
  simp [drawCalls]

theorem bufferRangeBinds_append (a b : List GLEvent) :
    bufferRangeBinds (a ++ b) = bufferRangeBinds a ++ bufferRangeBinds b := by
  simp [bufferRangeBinds]

theorem farErrors_bindTexture (sm : Int) (tx u : Nat) :
    farErrors (bindTexture sm tx u) = [] := by
  unfold bindTexture; split <;> simp [farErrors]

theorem drawCalls_bindTexture (sm : Int) (tx u : Nat) :
    drawCalls (bindTexture sm tx u) = [] := by
  unfold bindTexture; split <;> simp [drawCalls]

theorem bufferRangeBinds_bindTexture (sm : Int) (tx u : Nat) :
    bufferRangeBinds (bindTexture sm tx u) = [] := by
  unfold bindTexture; split <;> simp [bufferRangeBinds]

theorem applyTrace_bt_currentProgram (sm : Int) (tx u : Nat) (s : GLState) :
    (applyTrace (bindTexture sm tx u) s).currentProgram = s.currentProgram := by
  unfold bindTexture; split <;> simp [applyTrace, applyEvent]

theorem applyTrace_bt_vaoBinding (sm : Int) (tx u : Nat) (s : GLState) :
    (applyTrace (bindTexture sm tx u) s).vaoBinding = s.vaoBinding := by
  unfold bindTexture; split <;> simp [applyTrace, applyEvent]

theorem applyTrace_bt_tfBufferBinding (sm : Int) (tx u : Nat) (s : GLState) :
    (applyTrace (bindTexture sm tx u) s).tfBufferBinding = s.tfBufferBinding := by
  unfold bindTexture; split <;> simp [applyTrace, applyEvent]

theorem applyTrace_bt_rasterizerDiscard (sm : Int) (tx u : Nat) (s : GLState) :
    (applyTrace (bindTexture sm tx u) s).rasterizerDiscard
      = s.rasterizerDiscard := by
  unfold bindTexture; split <;> simp [applyTrace, applyEvent]

theorem applyTrace_bt_liveVAOs (sm : Int) (tx u : Nat) (s : GLState) :
    (applyTrace (bindTexture sm tx u) s).liveVAOs = s.liveVAOs := by
  unfold bindTexture; split <;> simp [applyTrace, applyEvent]

theorem applyTrace_bt_binding_ne (sm : Int) (tx u w : Nat) (s : GLState)
    (h : w ≠ u) :
    (applyTrace (bindTexture sm tx u) s).textureBufferBinding w
      = s.textureBufferBinding w := by
  unfold bindTexture; split <;>
    simp [applyTrace, applyEvent, Nat.add_sub_cancel_left, h]

theorem applyTrace_ite_farError (c : Prop) [Decidable c] (e : FarErrorType)
    (m : String) (s : GLState) :
    applyTrace (if c then [GLEvent.FarError e m] else []) s = s := by
  split <;> simp [applyTrace, applyEvent]

/-! ### Claim theorems -/

/-- Running the full non-empty-batch `EvalStencils` trace over any ambient GL
state leaves the transform-feedback binding, current program, vertex-array
binding, active texture unit and rasterizer-discard enable at their default
values, zeroes the texture-buffer bindings of every unit the trace used
(units 0-4 and the unit that was active on entry), and restores the live
vertex-array set (the temporary VAO is deleted). -/
theorem evalStencilsTrace_restores (ev : GLXFBEvaluator)
    (srcBuffer : Nat) (srcDesc : VertexBufferDescriptor)
    (dstBuffer : Nat) (dstDesc : VertexBufferDescriptor)
    (sizesTexture offsetsTexture indicesTexture weightsTexture : Nat)
    (start end_ : Int) (vao : Nat) (s0 : GLState) :
    (applyTrace (evalStencilsTrace ev srcBuffer srcDesc dstBuffer dstDesc
        sizesTexture offsetsTexture indicesTexture weightsTexture
        start end_ vao) s0).tfBufferBinding = 0 ∧
    (applyTrace (evalStencilsTrace ev srcBuffer srcDesc dstBuffer dstDesc
        sizesTexture offsetsTexture indicesTexture weightsTexture
        start end_ vao) s0).currentProgram = 0 ∧
    (applyTrace (evalStencilsTrace ev srcBuffer srcDesc dstBuffer dstDesc
        sizesTexture offsetsTexture indicesTexture weightsTexture
        start end_ vao) s0).vaoBinding = 0 ∧
    (applyTrace (evalStencilsTrace ev srcBuffer srcDesc dstBuffer dstDesc
        sizesTexture offsetsTexture indicesTexture weightsTexture
        start end_ vao) s0).activeUnit = 0 ∧
    (applyTrace (evalStencilsTrace ev srcBuffer srcDesc dstBuffer dstDesc
        sizesTexture offsetsTexture indicesTexture weightsTexture
        start end_ vao) s0).rasterizerDiscard = false ∧
    (∀ u, u < 5 →
      (applyTrace (evalStencilsTrace ev srcBuffer srcDesc dstBuffer dstDesc
          sizesTexture offsetsTexture indicesTexture weightsTexture
          start end_ vao) s0).textureBufferBinding u = 0) ∧
    (applyTrace (evalStencilsTrace ev srcBuffer srcDesc dstBuffer dstDesc
        sizesTexture offsetsTexture indicesTexture weightsTexture
        start end_ vao) s0).textureBufferBinding s0.activeUnit = 0 ∧
    (applyTrace (evalStencilsTrace ev srcBuffer srcDesc dstBuffer dstDesc
        sizesTexture offsetsTexture indicesTexture weightsTexture
        start end_ vao) s0).liveVAOs = s0.liveVAOs := by
  simp only [evalStencilsTrace, applyTrace_append]
  refine ⟨?_, ?_, ?_, ?_, ?_, ?_, ?_, ?_⟩
  · simp [applyTrace, applyEvent, applyTrace_bt_tfBufferBinding]
  · simp [applyTrace, applyEvent]
  · simp [applyTrace, applyEvent]
  · simp [applyTrace, applyEvent]
  · simp [applyTrace, applyEvent]
  · intro u hu
    interval_cases u <;> simp [applyTrace, applyEvent]
  · by_cases h5 : s0.activeUnit < 5
    · interval_cases hcase : s0.activeUnit <;>
        simp [applyTrace, applyEvent, hcase]
    · have h0 : s0.activeUnit ≠ 0 := by omega
      have h1 : s0.activeUnit ≠ 1 := by omega
      have h2 : s0.activeUnit ≠ 2 := by omega
      have h3 : s0.activeUnit ≠ 3 := by omega
      have h4 : s0.activeUnit ≠ 4 := by omega
      simp [applyTrace, applyEvent, applyTrace_bt_binding_ne,
        h0, h1, h2, h3, h4]
  · simp [applyTrace, applyEvent, applyTrace_bt_liveVAOs]

/-- Running the full `EvalPatches` trace over any ambient GL state leaves the
transform-feedback binding, current program, vertex-array binding, active
texture unit and rasterizer-discard enable at their default values, zeroes the
texture-buffer bindings of every unit the trace used (units 0-2 and the unit
that was active on entry), and restores the live vertex-array set. -/
theorem evalPatchesTrace_restores (ev : GLXFBEvaluator)
    (srcBuffer : Nat) (srcDesc : VertexBufferDescriptor)
    (dstBuffer : Nat) (dstDesc : VertexBufferDescriptor)
    (duBuffer dvBuffer : Nat)
    (numPatchCoords : Int) (patchCoordsBuffer : Nat)
    (patchArrays : List PatchArray)
    (patchIndexTexture patchParamTexture : Nat) (vao : Nat) (s0 : GLState) :
    (applyTrace (evalPatchesTrace ev srcBuffer srcDesc dstBuffer dstDesc
        duBuffer dvBuffer numPatchCoords patchCoordsBuffer patchArrays
        patchIndexTexture patchParamTexture vao) s0).tfBufferBinding = 0 ∧
    (applyTrace (evalPatchesTrace ev srcBuffer srcDesc dstBuffer dstDesc
        duBuffer dvBuffer numPatchCoords patchCoordsBuffer patchArrays
        patchIndexTexture patchParamTexture vao) s0).currentProgram = 0 ∧
    (applyTrace (evalPatchesTrace ev srcBuffer srcDesc dstBuffer dstDesc
        duBuffer dvBuffer numPatchCoords patchCoordsBuffer patchArrays
        patchIndexTexture patchParamTexture vao) s0).vaoBinding = 0 ∧
    (applyTrace (evalPatchesTrace ev srcBuffer srcDesc dstBuffer dstDesc
        duBuffer dvBuffer numPatchCoords patchCoordsBuffer patchArrays
        patchIndexTexture patchParamTexture vao) s0).activeUnit = 0 ∧
    (applyTrace (evalPatchesTrace ev srcBuffer srcDesc dstBuffer dstDesc
        duBuffer dvBuffer numPatchCoords patchCoordsBuffer patchArrays
        patchIndexTexture patchParamTexture vao) s0).rasterizerDiscard
      = false ∧
    (∀ u, u < 3 →
      (applyTrace (evalPatchesTrace ev srcBuffer srcDesc dstBuffer dstDesc
          duBuffer dvBuffer numPatchCoords patchCoordsBuffer patchArrays
          patchIndexTexture patchParamTexture vao) s0).textureBufferBinding u
        = 0) ∧
    (applyTrace (evalPatchesTrace ev srcBuffer srcDesc dstBuffer dstDesc
        duBuffer dvBuffer numPatchCoords patchCoordsBuffer patchArrays
        patchIndexTexture patchParamTexture vao)
        s0).textureBufferBinding s0.activeUnit = 0 ∧
    (applyTrace (evalPatchesTrace ev srcBuffer srcDesc dstBuffer dstDesc
        duBuffer dvBuffer numPatchCoords patchCoordsBuffer patchArrays
        patchIndexTexture patchParamTexture vao) s0).liveVAOs
      = s0.liveVAOs := by
  simp only [evalPatchesTrace, applyTrace_append, applyTrace_ite_farError]
  refine ⟨?_, ?_, ?_, ?_, ?_, ?_, ?_, ?_⟩
  · simp [applyTrace, applyEvent, GL_ARRAY_BUFFER, GL_TRANSFORM_FEEDBACK_BUFFER,
      GL_RASTERIZER_DISCARD, GL_TEXTURE_BUFFER]
  · simp [applyTrace, applyEvent, GL_ARRAY_BUFFER, GL_TRANSFORM_FEEDBACK_BUFFER,
      GL_RASTERIZER_DISCARD, GL_TEXTURE_BUFFER]
  · simp [applyTrace, applyEvent, GL_ARRAY_BUFFER, GL_TRANSFORM_FEEDBACK_BUFFER,
      GL_RASTERIZER_DISCARD, GL_TEXTURE_BUFFER]
  · simp [applyTrace, applyEvent, GL_ARRAY_BUFFER, GL_TRANSFORM_FEEDBACK_BUFFER,
      GL_RASTERIZER_DISCARD, GL_TEXTURE_BUFFER]
  · simp [applyTrace, applyEvent, GL_ARRAY_BUFFER, GL_TRANSFORM_FEEDBACK_BUFFER,
      GL_RASTERIZER_DISCARD, GL_TEXTURE_BUFFER]
  · intro u hu
    interval_cases u <;>
      simp [applyTrace, applyEvent, GL_ARRAY_BUFFER,
        GL_TRANSFORM_FEEDBACK_BUFFER, GL_RASTERIZER_DISCARD, GL_TEXTURE_BUFFER]
  · by_cases h3 : s0.activeUnit < 3
    · interval_cases hcase : s0.activeUnit <;>
        simp [applyTrace, applyEvent, hcase, GL_ARRAY_BUFFER,
          GL_TRANSFORM_FEEDBACK_BUFFER, GL_RASTERIZER_DISCARD,
          GL_TEXTURE_BUFFER]
    · have h0 : s0.activeUnit ≠ 0 := by omega
      have h1 : s0.activeUnit ≠ 1 := by omega
      have h2 : s0.activeUnit ≠ 2 := by omega
      simp [applyTrace, applyEvent, applyTrace_bt_binding_ne, h0, h1, h2,
        GL_ARRAY_BUFFER, GL_TRANSFORM_FEEDBACK_BUFFER, GL_RASTERIZER_DISCARD,
        GL_TEXTURE_BUFFER]
  · simp [applyTrace, applyEvent, applyTrace_bt_liveVAOs, GL_ARRAY_BUFFER,
      GL_TRANSFORM_FEEDBACK_BUFFER, GL_RASTERIZER_DISCARD, GL_TEXTURE_BUFFER]

/-- C7: every call to the static `GLXFBEvaluator::Synchronize` performs a
blocking synchronize: whatever the kernel argument, the trace is exactly one
`glFinish` command — in particular the argument is ignored and no fence/sync
command is ever issued. -/
theorem C7_synchronize_is_glFinish :
    ∀ kernel : Nat, GLXFBEvaluator.Synchronize kernel = [GLEvent.Finish] :=
  fun _ => rfl

/-- C8: `GLXFBEvaluator::EvalStencils` returns false with an empty trace when
no stencil kernel program has been compiled; returns true with an empty trace
when the batch is empty (`end - start <= 0`); and returns true otherwise. -/
theorem C8_evalStencils_early_returns (ev : GLXFBEvaluator)
    (srcBuffer : Nat) (srcDesc : VertexBufferDescriptor)
    (dstBuffer : Nat) (dstDesc : VertexBufferDescriptor)
    (sizesTexture offsetsTexture indicesTexture weightsTexture : Nat)
    (start end_ : Int) (vao : Nat) :
    (ev._stencilKernel.program = 0 →
      ev.EvalStencils srcBuffer srcDesc dstBuffer dstDesc
        sizesTexture offsetsTexture indicesTexture weightsTexture
        start end_ vao = (false, [])) ∧
    (ev._stencilKernel.program ≠ 0 → end_ - start ≤ 0 →
      ev.EvalStencils srcBuffer srcDesc dstBuffer dstDesc
        sizesTexture offsetsTexture indicesTexture weightsTexture
        start end_ vao = (true, [])) ∧
    (ev._stencilKernel.program ≠ 0 → 0 < end_ - start →
      (ev.EvalStencils srcBuffer srcDesc dstBuffer dstDesc
        sizesTexture offsetsTexture indicesTexture weightsTexture
        start end_ vao).fst = true) := by
  refine ⟨fun h => ?_, fun h hle => ?_, fun h hlt => ?_⟩
  · simp [GLXFBEvaluator.EvalStencils, h]
  · simp [GLXFBEvaluator.EvalStencils, h, hle]
  · simp [GLXFBEvaluator.EvalStencils, h, not_le.mpr hlt]

/-- C8 witness: the three branches at concrete inputs. -/
theorem C8_evalStencils_early_returns_witness :
    (GLXFBEvaluator.EvalStencils
      ⟨⟨0, 0, 0, 0, 0, 0, 0, 0, 0⟩, ⟨0, 0, 0, 0, 0, 0⟩, 0⟩
      0 ⟨0, 0, 0⟩ 0 ⟨0, 0, 0⟩ 0 0 0 0 0 9 7 = (false, [])) ∧
    (GLXFBEvaluator.EvalStencils
      ⟨⟨2, 0, 0, 0, 0, 0, 0, 0, 0⟩, ⟨0, 0, 0, 0, 0, 0⟩, 0⟩
      0 ⟨0, 0, 0⟩ 0 ⟨0, 0, 0⟩ 0 0 0 0 5 5 7 = (true, [])) ∧
    ((GLXFBEvaluator.EvalStencils
      ⟨⟨2, 0, 0, 0, 0, 0, 0, 0, 0⟩, ⟨0, 0, 0, 0, 0, 0⟩, 0⟩
      0 ⟨0, 0, 1⟩ 0 ⟨0, 0, 1⟩ 0 0 0 0 0 3 7).fst = true) :=
  ⟨(C8_evalStencils_early_returns _ 0 _ 0 _ 0 0 0 0 0 9 7).1 rfl,
   (C8_evalStencils_early_returns _ 0 _ 0 _ 0 0 0 0 5 5 7).2.1
     (by decide) (by decide),
   (C8_evalStencils_early_returns _ 0 _ 0 _ 0 0 0 0 0 3 7).2.2
     (by decide) (by decide)⟩

/-- C4: the shader source that `compileKernel` hands to the GL compiler is
exactly three strings in this order: the `#version 410` line, the generated
defines block (`#define LENGTH <srcDesc.length>`, `#define SRC_STRIDE
<srcDesc.stride>`, then the kernel-selecting define), and the fixed embedded
XFB kernel source. -/
theorem C4_compileKernel_shader_sources
    (srcDesc dstDesc : VertexBufferDescriptor) (kernelDefine : String)
    (program shader : Nat) (res : LinkResult) :
    shaderSourceCalls
        (compileKernel srcDesc dstDesc kernelDefine program shader res).snd
      = [(shader, 3,
          ["#version 410\n",
           "#define LENGTH " ++ toString srcDesc.length ++ "\n"
             ++ "#define SRC_STRIDE " ++ toString srcDesc.stride ++ "\n"
             ++ kernelDefine ++ "\n",
           shaderSource])] := by
  cases hr : res.linked <;> simp [compileKernel, shaderSourceCalls, hr]

/-- C1 counterexample: a call to `EvalPatches` that requests a derivative
output buffer (`duBuffer = 1 ≠ 0`) on an evaluator whose patch kernel program
is 0 returns immediately and reports no `Far::Error` at all, contradicting
the claim that every such call reports a runtime error. -/
theorem C1_counterexample :
    (1 : Nat) ≠ 0 ∧
    farErrors (GLXFBEvaluator.EvalPatches
        ⟨⟨0, 0, 0, 0, 0, 0, 0, 0, 0⟩, ⟨0, 0, 0, 0, 0, 0⟩, 0⟩
        0 ⟨0, 0, 1⟩ 0 ⟨0, 0, 1⟩ 1 0 1 0 [] 0 0 7).snd = [] :=
  ⟨by decide, rfl⟩

/-- C1 (amended): for every call to `GLXFBEvaluator::EvalPatches` whose patch
kernel has been compiled (program ≠ 0), if a derivative output buffer is
requested (`duBuffer ≠ 0` or `dvBuffer ≠ 0`) the evaluator reports exactly one
runtime error, `FAR_RUNTIME_ERROR` with the unsupported-derivative message. -/
theorem C1_evalPatches_derivative_error (ev : GLXFBEvaluator)
    (srcBuffer : Nat) (srcDesc : VertexBufferDescriptor)
    (dstBuffer : Nat) (dstDesc : VertexBufferDescriptor)
    (duBuffer dvBuffer : Nat)
    (numPatchCoords : Int) (patchCoordsBuffer : Nat)
    (patchArrays : List PatchArray)
    (patchIndexTexture patchParamTexture : Nat) (vao : Nat)
    (hp : ev._patchKernel.program ≠ 0)
    (hd : duBuffer ≠ 0 ∨ dvBuffer ≠ 0) :
    farErrors (ev.EvalPatches srcBuffer srcDesc dstBuffer dstDesc
        duBuffer dvBuffer numPatchCoords patchCoordsBuffer patchArrays
        patchIndexTexture patchParamTexture vao).snd
      = [(FarErrorType.FAR_RUNTIME_ERROR,
          "GLXFBEvaluator doesn't support derivative evaluation yet.\n")] := by
  simp only [GLXFBEvaluator.EvalPatches, if_neg hp]
  simp only [evalPatchesTrace, farErrors_append, farErrors_bindTexture,
    if_pos hd]
  simp [farErrors]

/-- C2: for a destination descriptor that fits one vertex stride,
`compileKernel` declares exactly `stride` transform-feedback varyings in
interleaved mode: `offset % stride` skips, the `length` output components in
index order, then skips padding up to `stride`. -/
theorem C2_compileKernel_varyings
    (srcDesc dstDesc : VertexBufferDescriptor) (kernelDefine : String)
    (program shader : Nat) (res : LinkResult)
    (hstride : 0 < dstDesc.stride)
    (hfit : dstDesc.offset % dstDesc.stride + dstDesc.length ≤ dstDesc.stride) :
    tfvCalls (compileKernel srcDesc dstDesc kernelDefine program shader res).snd
      = [(program, dstDesc.stride,
          List.replicate (dstDesc.offset % dstDesc.stride) "gl_SkipComponents1"
            ++ (List.range dstDesc.length).map
                (fun i => "outVertexBuffer[" ++ toString i ++ "]")
            ++ List.replicate
                (dstDesc.stride - (dstDesc.offset % dstDesc.stride + dstDesc.length))
                "gl_SkipComponents1",
          GL_INTERLEAVED_ATTRIBS)] := by
  cases hr : res.linked <;>
    simp [compileKernel, tfvCalls, tfVaryingOutputs, hr] <;>
    omega

/-- C2 witness: descriptor offset 5, length 3, stride 8 (so 5 skips, 3
outputs, 0 pads). -/
theorem C2_compileKernel_varyings_witness :
    tfvCalls (compileKernel ⟨0, 4, 4⟩ ⟨5, 3, 8⟩ "#define K" 11 12
        ⟨true, "", ""⟩).snd
      = [(11, 8,
          List.replicate 5 "gl_SkipComponents1"
            ++ (List.range 3).map
                (fun i => "outVertexBuffer[" ++ toString i ++ "]")
            ++ List.replicate 0 "gl_SkipComponents1",
          GL_INTERLEAVED_ATTRIBS)] := by
  have h := C2_compileKernel_varyings ⟨0, 4, 4⟩ ⟨5, 3, 8⟩ "#define K" 11 12
    ⟨true, "", ""⟩ (by decide) (by decide)
  simpa using h

theorem compileKernel_fst (srcDesc dstDesc : VertexBufferDescriptor)
    (kernelDefine : String) (program shader : Nat) (res : LinkResult) :
    (compileKernel srcDesc dstDesc kernelDefine program shader res).fst
      = if res.linked then program else 0 := by
  cases hr : res.linked <;> simp [compileKernel, hr]

theorem farErrors_compileKernel (srcDesc dstDesc : VertexBufferDescriptor)
    (kernelDefine : String) (program shader : Nat) (res : LinkResult) :
    farErrors (compileKernel srcDesc dstDesc kernelDefine program shader res).snd
      = if res.linked then []
        else [(FarErrorType.FAR_RUNTIME_ERROR, res.shaderLog),
              (FarErrorType.FAR_RUNTIME_ERROR, res.programLog)] := by
  cases hr : res.linked <;> simp [compileKernel, farErrors, hr]

theorem deleteProgram_mem_compileKernel
    (srcDesc dstDesc : VertexBufferDescriptor) (kernelDefine : String)
    (program shader : Nat) (res : LinkResult) (h : res.linked = false) :
    GLEvent.DeleteProgram program
      ∈ (compileKernel srcDesc dstDesc kernelDefine program shader res).snd := by
  simp [compileKernel, h]

theorem farErrors_ite_deleteProgram (c : Prop) [Decidable c] (x : Nat) :
    farErrors (if c then [GLEvent.DeleteProgram x] else []) = [] := by
  split <;> simp [farErrors]

theorem farErrors_ite_nil_deleteProgram (c : Prop) [Decidable c] (x : Nat) :
    farErrors (if c then [] else [GLEvent.DeleteProgram x]) = [] := by
  split <;> simp [farErrors]

theorem farErrors_getUniformLocation_cons (p : Nat) (n : String)
    (t : List GLEvent) :
    farErrors (GLEvent.GetUniformLocation p n :: t) = farErrors t := by
  simp [farErrors]

/-- C3: `GLXFBEvaluator::Compile` forwards both driver info logs verbatim as
`FAR_RUNTIME_ERROR` when a kernel fails to link, deletes the failed program
object, and returns false; when both the stencil and the patch kernel link it
returns true.  `program1`/`program2` are the (nonzero) names `glCreateProgram`
produces for the two kernels. -/
theorem C3_compile_link_outcomes (ev : GLXFBEvaluator)
    (srcDesc dstDesc : VertexBufferDescriptor) (o : CompileOracle)
    (hp1 : o.program1 ≠ 0) (hp2 : o.program2 ≠ 0) :
    (o.link1.linked = false →
      (ev.Compile srcDesc dstDesc o).2.1 = false ∧
      farErrors (ev.Compile srcDesc dstDesc o).2.2
        = [(FarErrorType.FAR_RUNTIME_ERROR, o.link1.shaderLog),
           (FarErrorType.FAR_RUNTIME_ERROR, o.link1.programLog)] ∧
      GLEvent.DeleteProgram o.program1 ∈ (ev.Compile srcDesc dstDesc o).2.2) ∧
    (o.link1.linked = true → o.link2.linked = false →
      (ev.Compile srcDesc dstDesc o).2.1 = false ∧
      farErrors (ev.Compile srcDesc dstDesc o).2.2
        = [(FarErrorType.FAR_RUNTIME_ERROR, o.link2.shaderLog),
           (FarErrorType.FAR_RUNTIME_ERROR, o.link2.programLog)] ∧
      GLEvent.DeleteProgram o.program2 ∈ (ev.Compile srcDesc dstDesc o).2.2) ∧
    (o.link1.linked = true → o.link2.linked = true →
      (ev.Compile srcDesc dstDesc o).2.1 = true) := by
  refine ⟨fun h1 => ?_, fun h1 h2 => ?_, fun h1 h2 => ?_⟩
  · have hf : (compileKernel srcDesc dstDesc
        "#define OPENSUBDIV_GLSL_XFB_KERNEL_EVAL_STENCILS"
        o.program1 o.shader1 o.link1).fst = 0 := by
      rw [compileKernel_fst, h1]; rfl
    simp [GLXFBEvaluator.Compile, hf, farErrors_append,
      farErrors_ite_deleteProgram, farErrors_ite_nil_deleteProgram,
      farErrors_getUniformLocation_cons, farErrors_compileKernel, h1,
      deleteProgram_mem_compileKernel _ _ _ _ _ _ h1]
  · have hf1 : (compileKernel srcDesc dstDesc
        "#define OPENSUBDIV_GLSL_XFB_KERNEL_EVAL_STENCILS"
        o.program1 o.shader1 o.link1).fst = o.program1 := by
      rw [compileKernel_fst, h1]; rfl
    have hf2 : (compileKernel srcDesc dstDesc
        "#define OPENSUBDIV_GLSL_XFB_KERNEL_EVAL_PATCHES"
        o.program2 o.shader2 o.link2).fst = 0 := by
      rw [compileKernel_fst, h2]; rfl
    simp [GLXFBEvaluator.Compile, hf1, hf2, hp1, farErrors_append,
      farErrors_ite_deleteProgram, farErrors_ite_nil_deleteProgram,
      farErrors_getUniformLocation_cons, farErrors_compileKernel, h1, h2,
      deleteProgram_mem_compileKernel _ _ _ _ _ _ h2]
  · have hf1 : (compileKernel srcDesc dstDesc
        "#define OPENSUBDIV_GLSL_XFB_KERNEL_EVAL_STENCILS"
        o.program1 o.shader1 o.link1).fst = o.program1 := by
      rw [compileKernel_fst, h1]; rfl
    have hf2 : (compileKernel srcDesc dstDesc
        "#define OPENSUBDIV_GLSL_XFB_KERNEL_EVAL_PATCHES"
        o.program2 o.shader2 o.link2).fst = o.program2 := by
      rw [compileKernel_fst, h2]; rfl
    simp [GLXFBEvaluator.Compile, hf1, hf2, hp1, hp2]

/-- C3 witness: a failing stencil link (logs forwarded, program 21 deleted,
result false) and a run in which both kernels link (result true). -/
theorem C3_compile_link_outcomes_witness :
    ((GLXFBEvaluator.Compile
        ⟨⟨0, 0, 0, 0, 0, 0, 0, 0, 0⟩, ⟨0, 0, 0, 0, 0, 0⟩, 0⟩ ⟨0, 4, 4⟩ ⟨0, 4, 4⟩
        ⟨21, 22, ⟨false, "sLog", "pLog"⟩, 23, 24, ⟨true, "", ""⟩,
         fun _ _ => 1, 30⟩).2.1 = false ∧
      farErrors ((GLXFBEvaluator.Compile
        ⟨⟨0, 0, 0, 0, 0, 0, 0, 0, 0⟩, ⟨0, 0, 0, 0, 0, 0⟩, 0⟩ ⟨0, 4, 4⟩ ⟨0, 4, 4⟩
        ⟨21, 22, ⟨false, "sLog", "pLog"⟩, 23, 24, ⟨true, "", ""⟩,
         fun _ _ => 1, 30⟩).2.2)
        = [(FarErrorType.FAR_RUNTIME_ERROR, "sLog"),
           (FarErrorType.FAR_RUNTIME_ERROR, "pLog")] ∧
      GLEvent.DeleteProgram 21 ∈ (GLXFBEvaluator.Compile
        ⟨⟨0, 0, 0, 0, 0, 0, 0, 0, 0⟩, ⟨0, 0, 0, 0, 0, 0⟩, 0⟩ ⟨0, 4, 4⟩ ⟨0, 4, 4⟩
        ⟨21, 22, ⟨false, "sLog", "pLog"⟩, 23, 24, ⟨true, "", ""⟩,
         fun _ _ => 1, 30⟩).2.2) ∧
    (GLXFBEvaluator.Compile
        ⟨⟨0, 0, 0, 0, 0, 0, 0, 0, 0⟩, ⟨0, 0, 0, 0, 0, 0⟩, 0⟩ ⟨0, 4, 4⟩ ⟨0, 4, 4⟩
        ⟨21, 22, ⟨true, "", ""⟩, 23, 24, ⟨true, "", ""⟩,
         fun _ _ => 1, 30⟩).2.1 = true :=
  ⟨(C3_compile_link_outcomes _ _ _ _ (by decide) (by decide)).1 rfl,
   (C3_compile_link_outcomes _ _ _ _ (by decide) (by decide)).2.2 rfl rfl⟩

/-- C5: for a stencil table with stencils, the `GLStencilTableTBO` constructor
uploads exactly four texture buffers — the full sizes vector as `GL_R32UI`,
the full offsets vector as `GL_R32I`, the full control-index vector as
`GL_R32I`, and the full weights vector as `GL_R32F` (4 bytes per element). -/
theorem C5_stencilTableTBO_uploads (st : StencilTable)
    (o1 o2 o3 o4 : BufOracle) (h : 0 < st.GetNumStencils) :
    bufferUploads (mkGLStencilTableTBO st o1 o2 o3 o4).snd
      = [(st.GetSizes.length * 4, st.GetSizes),
         (st.GetOffsets.length * 4, st.GetOffsets),
         (st.GetControlIndices.length * 4, st.GetControlIndices),
         (st.GetWeights.length * 4, st.GetWeights)] ∧
    texBufferFormats (mkGLStencilTableTBO st o1 o2 o3 o4).snd
      = [GL_R32UI, GL_R32I, GL_R32I, GL_R32F] := by
  constructor <;>
    simp [mkGLStencilTableTBO, h, createGLTextureBuffer, bufferUploads,
      texBufferFormats]

/-- C5 witness: a one-stencil table. -/
theorem C5_stencilTableTBO_uploads_witness :
    bufferUploads (mkGLStencilTableTBO ⟨1, [2], [0], [5, 6], [7, 8]⟩
        ⟨1, 2, 0, 0⟩ ⟨3, 4, 0, 0⟩ ⟨5, 6, 0, 0⟩ ⟨7, 8, 0, 0⟩).snd
      = [(4, [2]), (4, [0]), (8, [5, 6]), (8, [7, 8])] ∧
    texBufferFormats (mkGLStencilTableTBO ⟨1, [2], [0], [5, 6], [7, 8]⟩
        ⟨1, 2, 0, 0⟩ ⟨3, 4, 0, 0⟩ ⟨5, 6, 0, 0⟩ ⟨7, 8, 0, 0⟩).snd
      = [GL_R32UI, GL_R32I, GL_R32I, GL_R32F] := by
  have h := C5_stencilTableTBO_uploads ⟨1, [2], [0], [5, 6], [7, 8]⟩
    ⟨1, 2, 0, 0⟩ ⟨3, 4, 0, 0⟩ ⟨5, 6, 0, 0⟩ ⟨7, 8, 0, 0⟩ (by decide)
  simpa using h

/-- C9: for an empty stencil table the constructor zeroes all four texture
handles and uploads nothing; the destructor deletes only nonzero handles, so
destroying an empty table deletes no textures. -/
theorem C9_empty_stencil_table (st : StencilTable) (o1 o2 o3 o4 : BufOracle)
    (h : st.GetNumStencils = 0) :
    (mkGLStencilTableTBO st o1 o2 o3 o4).fst._sizes = 0 ∧
    (mkGLStencilTableTBO st o1 o2 o3 o4).fst._offsets = 0 ∧
    (mkGLStencilTableTBO st o1 o2 o3 o4).fst._indices = 0 ∧
    (mkGLStencilTableTBO st o1 o2 o3 o4).fst._weights = 0 ∧
    (mkGLStencilTableTBO st o1 o2 o3 o4).snd = [] ∧
    destroyGLStencilTableTBO (mkGLStencilTableTBO st o1 o2 o3 o4).fst = [] ∧
    (∀ t : GLStencilTableTBO,
      ∀ x ∈ deletedTextures (destroyGLStencilTableTBO t), x ≠ 0) := by
  refine ⟨?_, ?_, ?_, ?_, ?_, ?_, ?_⟩
  · simp [mkGLStencilTableTBO, h]
  · simp [mkGLStencilTableTBO, h]
  · simp [mkGLStencilTableTBO, h]
  · simp [mkGLStencilTableTBO, h]
  · simp [mkGLStencilTableTBO, h]
  · simp [mkGLStencilTableTBO, h, destroyGLStencilTableTBO]
  · intro t x hx
    unfold destroyGLStencilTableTBO at hx
    split_ifs at hx <;> simp [deletedTextures] at hx <;> aesop

/-- C9 witness: the empty table. -/
theorem C9_empty_stencil_table_witness :
    (mkGLStencilTableTBO ⟨0, [], [], [], []⟩
        ⟨1, 2, 0, 0⟩ ⟨3, 4, 0, 0⟩ ⟨5, 6, 0, 0⟩ ⟨7, 8, 0, 0⟩).fst._sizes = 0 ∧
    (mkGLStencilTableTBO ⟨0, [], [], [], []⟩
        ⟨1, 2, 0, 0⟩ ⟨3, 4, 0, 0⟩ ⟨5, 6, 0, 0⟩ ⟨7, 8, 0, 0⟩).snd = [] ∧
    destroyGLStencilTableTBO (mkGLStencilTableTBO ⟨0, [], [], [], []⟩
        ⟨1, 2, 0, 0⟩ ⟨3, 4, 0, 0⟩ ⟨5, 6, 0, 0⟩ ⟨7, 8, 0, 0⟩).fst = [] := by
  have h := C9_empty_stencil_table ⟨0, [], [], [], []⟩
    ⟨1, 2, 0, 0⟩ ⟨3, 4, 0, 0⟩ ⟨5, 6, 0, 0⟩ ⟨7, 8, 0, 0⟩ (by decide)
  exact ⟨h.1, h.2.2.2.2.1, h.2.2.2.2.2.1⟩

/-- C6: a non-empty `EvalStencils` batch issues exactly one draw of
`end - start` points, binds the destination buffer at the vertex-aligned byte
offset `(offset - offset % stride) * 4` for `(end - start) * stride * 4`
bytes, and sets the batch-range uniforms to `start` and `end`.
(`stride > 0` because a zero stride would divide by zero in the source.) -/
theorem C6_evalStencils_draw (ev : GLXFBEvaluator)
    (srcBuffer : Nat) (srcDesc : VertexBufferDescriptor)
    (dstBuffer : Nat) (dstDesc : VertexBufferDescriptor)
    (sizesTexture offsetsTexture indicesTexture weightsTexture : Nat)
    (start end_ : Int) (vao : Nat)
    (hp : ev._stencilKernel.program ≠ 0)
    (hc : 0 < end_ - start)
    (hs : 0 < dstDesc.stride) :
    drawCalls (ev.EvalStencils srcBuffer srcDesc dstBuffer dstDesc
        sizesTexture offsetsTexture indicesTexture weightsTexture
        start end_ vao).snd
      = [(GL_POINTS, 0, end_ - start)] ∧
    bufferRangeBinds (ev.EvalStencils srcBuffer srcDesc dstBuffer dstDesc
        sizesTexture offsetsTexture indicesTexture weightsTexture
        start end_ vao).snd
      = [(GL_TRANSFORM_FEEDBACK_BUFFER, 0, dstBuffer,
          (dstDesc.offset - dstDesc.offset % dstDesc.stride) * 4,
          (end_ - start).toNat * dstDesc.stride * 4)] ∧
    GLEvent.Uniform1i ev._stencilKernel.uniformStart start
      ∈ (ev.EvalStencils srcBuffer srcDesc dstBuffer dstDesc
          sizesTexture offsetsTexture indicesTexture weightsTexture
          start end_ vao).snd ∧
    GLEvent.Uniform1i ev._stencilKernel.uniformEnd end_
      ∈ (ev.EvalStencils srcBuffer srcDesc dstBuffer dstDesc
          sizesTexture offsetsTexture indicesTexture weightsTexture
          start end_ vao).snd := by
  have hne : ¬(end_ - start ≤ 0) := not_le.mpr hc
  have ht : (ev.EvalStencils srcBuffer srcDesc dstBuffer dstDesc
      sizesTexture offsetsTexture indicesTexture weightsTexture
      start end_ vao).snd
      = evalStencilsTrace ev srcBuffer srcDesc dstBuffer dstDesc
          sizesTexture offsetsTexture indicesTexture weightsTexture
          start end_ vao := by
    simp [GLXFBEvaluator.EvalStencils, hp, hne]
  refine ⟨?_, ?_, ?_, ?_⟩ <;> rw [ht]
  · simp only [evalStencilsTrace, drawCalls_append, drawCalls_bindTexture]
    simp [drawCalls]
  · simp only [evalStencilsTrace, bufferRangeBinds_append,
      bufferRangeBinds_bindTexture]
    simp [bufferRangeBinds]
  · simp [evalStencilsTrace]
  · simp [evalStencilsTrace]

/-- C6 witness: batch [2, 5) on a stride-4 destination at offset 9. -/
theorem C6_evalStencils_draw_witness :
    drawCalls (GLXFBEvaluator.EvalStencils
        ⟨⟨17, -1, -1, -1, -1, -1, 6, 7, 8⟩, ⟨0, 0, 0, 0, 0, 0⟩, 5⟩
        0 ⟨0, 3, 4⟩ 42 ⟨9, 3, 4⟩ 0 0 0 0 2 5 7).snd
      = [(GL_POINTS, 0, 3)] ∧
    bufferRangeBinds (GLXFBEvaluator.EvalStencils
        ⟨⟨17, -1, -1, -1, -1, -1, 6, 7, 8⟩, ⟨0, 0, 0, 0, 0, 0⟩, 5⟩
        0 ⟨0, 3, 4⟩ 42 ⟨9, 3, 4⟩ 0 0 0 0 2 5 7).snd
      = [(GL_TRANSFORM_FEEDBACK_BUFFER, 0, 42, 32, 48)] ∧
    GLEvent.Uniform1i 7 2 ∈ (GLXFBEvaluator.EvalStencils
        ⟨⟨17, -1, -1, -1, -1, -1, 6, 7, 8⟩, ⟨0, 0, 0, 0, 0, 0⟩, 5⟩
        0 ⟨0, 3, 4⟩ 42 ⟨9, 3, 4⟩ 0 0 0 0 2 5 7).snd ∧
    GLEvent.Uniform1i 8 5 ∈ (GLXFBEvaluator.EvalStencils
        ⟨⟨17, -1, -1, -1, -1, -1, 6, 7, 8⟩, ⟨0, 0, 0, 0, 0, 0⟩, 5⟩
        0 ⟨0, 3, 4⟩ 42 ⟨9, 3, 4⟩ 0 0 0 0 2 5 7).snd := by
  have h := C6_evalStencils_draw
    ⟨⟨17, -1, -1, -1, -1, -1, 6, 7, 8⟩, ⟨0, 0, 0, 0, 0, 0⟩, 5⟩
    0 ⟨0, 3, 4⟩ 42 ⟨9, 3, 4⟩ 0 0 0 0 2 5 7
    (by decide) (by decide) (by decide)
  simpa using h

/-- C10: every completed evaluation call — `EvalStencils` on a non-empty
batch, and `EvalPatches` — restores the ambient GL binding state before
returning: the transform-feedback buffer binding, the current program, the
vertex array binding and the texture-buffer bindings on the units it used
(units 0-4 resp. 0-2, and the unit active on entry) are reset to 0, the
active texture unit to `GL_TEXTURE0` (unit 0), rasterizer discard is disabled
again, and the temporary vertex array object it created is deleted (the live
VAO set is exactly what it was on entry). -/
theorem C10_eval_restores_gl_state (ev : GLXFBEvaluator)
    (srcBuffer : Nat) (srcDesc : VertexBufferDescriptor)
    (dstBuffer : Nat) (dstDesc : VertexBufferDescriptor)
    (sizesTexture offsetsTexture indicesTexture weightsTexture : Nat)
    (start end_ : Int) (vao : Nat) (s0 : GLState)
    (duBuffer dvBuffer : Nat)
    (numPatchCoords : Int) (patchCoordsBuffer : Nat)
    (patchArrays : List PatchArray)
    (patchIndexTexture patchParamTexture : Nat) (vao2 : Nat) (t0 : GLState)
    (hp : ev._stencilKernel.program ≠ 0)
    (hc : 0 < end_ - start)
    (hq : ev._patchKernel.program ≠ 0) :
    ((applyTrace (ev.EvalStencils srcBuffer srcDesc dstBuffer dstDesc
        sizesTexture offsetsTexture indicesTexture weightsTexture
        start end_ vao).snd s0).tfBufferBinding = 0 ∧
     (applyTrace (ev.EvalStencils srcBuffer srcDesc dstBuffer dstDesc
        sizesTexture offsetsTexture indicesTexture weightsTexture
        start end_ vao).snd s0).currentProgram = 0 ∧
     (applyTrace (ev.EvalStencils srcBuffer srcDesc dstBuffer dstDesc
        sizesTexture offsetsTexture indicesTexture weightsTexture
        start end_ vao).snd s0).vaoBinding = 0 ∧
     (applyTrace (ev.EvalStencils srcBuffer srcDesc dstBuffer dstDesc
        sizesTexture offsetsTexture indicesTexture weightsTexture
        start end_ vao).snd s0).activeUnit = 0 ∧
     (applyTrace (ev.EvalStencils srcBuffer srcDesc dstBuffer dstDesc
        sizesTexture offsetsTexture indicesTexture weightsTexture
        start end_ vao).snd s0).rasterizerDiscard = false ∧
     (∀ u, u < 5 →
       (applyTrace (ev.EvalStencils srcBuffer srcDesc dstBuffer dstDesc
          sizesTexture offsetsTexture indicesTexture weightsTexture
          start end_ vao).snd s0).textureBufferBinding u = 0) ∧
     (applyTrace (ev.EvalStencils srcBuffer srcDesc dstBuffer dstDesc
        sizesTexture offsetsTexture indicesTexture weightsTexture
        start end_ vao).snd s0).textureBufferBinding s0.activeUnit = 0 ∧
     (applyTrace (ev.EvalStencils srcBuffer srcDesc dstBuffer dstDesc
        sizesTexture offsetsTexture indicesTexture weightsTexture
        start end_ vao).snd s0).liveVAOs = s0.liveVAOs) ∧
    ((applyTrace (ev.EvalPatches srcBuffer srcDesc dstBuffer dstDesc
        duBuffer dvBuffer numPatchCoords patchCoordsBuffer patchArrays
        patchIndexTexture patchParamTexture vao2).snd t0).tfBufferBinding
        = 0 ∧
     (applyTrace (ev.EvalPatches srcBuffer srcDesc dstBuffer dstDesc
        duBuffer dvBuffer numPatchCoords patchCoordsBuffer patchArrays
        patchIndexTexture patchParamTexture vao2).snd t0).currentProgram = 0 ∧
     (applyTrace (ev.EvalPatches srcBuffer srcDesc dstBuffer dstDesc
        duBuffer dvBuffer numPatchCoords patchCoordsBuffer patchArrays
        patchIndexTexture patchParamTexture vao2).snd t0).vaoBinding = 0 ∧
     (applyTrace (ev.EvalPatches srcBuffer srcDesc dstBuffer dstDesc
        duBuffer dvBuffer numPatchCoords patchCoordsBuffer patchArrays
        patchIndexTexture patchParamTexture vao2).snd t0).activeUnit = 0 ∧
     (applyTrace (ev.EvalPatches srcBuffer srcDesc dstBuffer dstDesc
        duBuffer dvBuffer numPatchCoords patchCoordsBuffer patchArrays
        patchIndexTexture patchParamTexture vao2).snd t0).rasterizerDiscard
        = false ∧
     (∀ u, u < 3 →
       (applyTrace (ev.EvalPatches srcBuffer srcDesc dstBuffer dstDesc
          duBuffer dvBuffer numPatchCoords patchCoordsBuffer patchArrays
          patchIndexTexture patchParamTexture vao2).snd t0).textureBufferBinding
          u = 0) ∧
     (applyTrace (ev.EvalPatches srcBuffer srcDesc dstBuffer dstDesc
        duBuffer dvBuffer numPatchCoords patchCoordsBuffer patchArrays
        patchIndexTexture patchParamTexture vao2).snd
        t0).textureBufferBinding t0.activeUnit = 0 ∧
     (applyTrace (ev.EvalPatches srcBuffer srcDesc dstBuffer dstDesc
        duBuffer dvBuffer numPatchCoords patchCoordsBuffer patchArrays
        patchIndexTexture patchParamTexture vao2).snd t0).liveVAOs
        = t0.liveVAOs) := by
  have htS : (ev.EvalStencils srcBuffer srcDesc dstBuffer dstDesc
      sizesTexture offsetsTexture indicesTexture weightsTexture
      start end_ vao).snd
      = evalStencilsTrace ev srcBuffer srcDesc dstBuffer dstDesc
          sizesTexture offsetsTexture indicesTexture weightsTexture
          start end_ vao := by
    simp [GLXFBEvaluator.EvalStencils, hp, not_le.mpr hc]
  have htP : (ev.EvalPatches srcBuffer srcDesc dstBuffer dstDesc
      duBuffer dvBuffer numPatchCoords patchCoordsBuffer patchArrays
      patchIndexTexture patchParamTexture vao2).snd
      = evalPatchesTrace ev srcBuffer srcDesc dstBuffer dstDesc
          duBuffer dvBuffer numPatchCoords patchCoordsBuffer patchArrays
          patchIndexTexture patchParamTexture vao2 := by
    simp [GLXFBEvaluator.EvalPatches, hq]
  rw [htS, htP]
  exact ⟨evalStencilsTrace_restores ev srcBuffer srcDesc dstBuffer dstDesc
      sizesTexture offsetsTexture indicesTexture weightsTexture
      start end_ vao s0,
    evalPatchesTrace_restores ev srcBuffer srcDesc dstBuffer dstDesc
      duBuffer dvBuffer numPatchCoords patchCoordsBuffer patchArrays
      patchIndexTexture patchParamTexture vao2 t0⟩

/-- C10 witness: both calls at concrete inputs, starting from a deliberately
dirty ambient state (nonzero bindings, rasterizer discard on, one live
VAO). -/
theorem C10_eval_restores_gl_state_witness :
    ((applyTrace (GLXFBEvaluator.EvalStencils
        ⟨⟨1, 0, 1, 2, 3, 4, 5, 6, 7⟩, ⟨2, 0, 1, 2, 3, 4⟩, 13⟩
        0 ⟨0, 3, 4⟩ 42 ⟨9, 3, 4⟩ 0 0 0 0 2 5 7).snd
        ⟨7, 8, 9, fun _ => 5, 4, 3, true, [11]⟩).tfBufferBinding = 0 ∧
     (applyTrace (GLXFBEvaluator.EvalStencils
        ⟨⟨1, 0, 1, 2, 3, 4, 5, 6, 7⟩, ⟨2, 0, 1, 2, 3, 4⟩, 13⟩
        0 ⟨0, 3, 4⟩ 42 ⟨9, 3, 4⟩ 0 0 0 0 2 5 7).snd
        ⟨7, 8, 9, fun _ => 5, 4, 3, true, [11]⟩).currentProgram = 0 ∧
     (applyTrace (GLXFBEvaluator.EvalStencils
        ⟨⟨1, 0, 1, 2, 3, 4, 5, 6, 7⟩, ⟨2, 0, 1, 2, 3, 4⟩, 13⟩
        0 ⟨0, 3, 4⟩ 42 ⟨9, 3, 4⟩ 0 0 0 0 2 5 7).snd
        ⟨7, 8, 9, fun _ => 5, 4, 3, true, [11]⟩).vaoBinding = 0 ∧
     (applyTrace (GLXFBEvaluator.EvalStencils
        ⟨⟨1, 0, 1, 2, 3, 4, 5, 6, 7⟩, ⟨2, 0, 1, 2, 3, 4⟩, 13⟩
        0 ⟨0, 3, 4⟩ 42 ⟨9, 3, 4⟩ 0 0 0 0 2 5 7).snd
        ⟨7, 8, 9, fun _ => 5, 4, 3, true, [11]⟩).activeUnit = 0 ∧
     (applyTrace (GLXFBEvaluator.EvalStencils
        ⟨⟨1, 0, 1, 2, 3, 4, 5, 6, 7⟩, ⟨2, 0, 1, 2, 3, 4⟩, 13⟩
        0 ⟨0, 3, 4⟩ 42 ⟨9, 3, 4⟩ 0 0 0 0 2 5 7).snd
        ⟨7, 8, 9, fun _ => 5, 4, 3, true, [11]⟩).rasterizerDiscard = false ∧
     (∀ u, u < 5 →
       (applyTrace (GLXFBEvaluator.EvalStencils
          ⟨⟨1, 0, 1, 2, 3, 4, 5, 6, 7⟩, ⟨2, 0, 1, 2, 3, 4⟩, 13⟩
          0 ⟨0, 3, 4⟩ 42 ⟨9, 3, 4⟩ 0 0 0 0 2 5 7).snd
          ⟨7, 8, 9, fun _ => 5, 4, 3, true, [11]⟩).textureBufferBinding u
          = 0) ∧
     (applyTrace (GLXFBEvaluator.EvalStencils
        ⟨⟨1, 0, 1, 2, 3, 4, 5, 6, 7⟩, ⟨2, 0, 1, 2, 3, 4⟩, 13⟩
        0 ⟨0, 3, 4⟩ 42 ⟨9, 3, 4⟩ 0 0 0 0 2 5 7).snd
        ⟨7, 8, 9, fun _ => 5, 4, 3, true, [11]⟩).textureBufferBinding
        (GLState.activeUnit ⟨7, 8, 9, fun _ => 5, 4, 3, true, [11]⟩) = 0 ∧
     (applyTrace (GLXFBEvaluator.EvalStencils
        ⟨⟨1, 0, 1, 2, 3, 4, 5, 6, 7⟩, ⟨2, 0, 1, 2, 3, 4⟩, 13⟩
        0 ⟨0, 3, 4⟩ 42 ⟨9, 3, 4⟩ 0 0 0 0 2 5 7).snd
        ⟨7, 8, 9, fun _ => 5, 4, 3, true, [11]⟩).liveVAOs
        = GLState.liveVAOs ⟨7, 8, 9, fun _ => 5, 4, 3, true, [11]⟩) ∧
    ((applyTrace (GLXFBEvaluator.EvalPatches
        ⟨⟨1, 0, 1, 2, 3, 4, 5, 6, 7⟩, ⟨2, 0, 1, 2, 3, 4⟩, 13⟩
        0 ⟨0, 3, 4⟩ 42 ⟨9, 3, 4⟩ 0 0 2 0 [] 0 0 8).snd
        ⟨7, 8, 9, fun _ => 5, 4, 3, true, [11]⟩).tfBufferBinding = 0 ∧
     (applyTrace (GLXFBEvaluator.EvalPatches
        ⟨⟨1, 0, 1, 2, 3, 4, 5, 6, 7⟩, ⟨2, 0, 1, 2, 3, 4⟩, 13⟩
        0 ⟨0, 3, 4⟩ 42 ⟨9, 3, 4⟩ 0 0 2 0 [] 0 0 8).snd
        ⟨7, 8, 9, fun _ => 5, 4, 3, true, [11]⟩).currentProgram = 0 ∧
     (applyTrace (GLXFBEvaluator.EvalPatches
        ⟨⟨1, 0, 1, 2, 3, 4, 5, 6, 7⟩, ⟨2, 0, 1, 2, 3, 4⟩, 13⟩
        0 ⟨0, 3, 4⟩ 42 ⟨9, 3, 4⟩ 0 0 2 0 [] 0 0 8).snd
        ⟨7, 8, 9, fun _ => 5, 4, 3, true, [11]⟩).vaoBinding = 0 ∧
     (applyTrace (GLXFBEvaluator.EvalPatches
        ⟨⟨1, 0, 1, 2, 3, 4, 5, 6, 7⟩, ⟨2, 0, 1, 2, 3, 4⟩, 13⟩
        0 ⟨0, 3, 4⟩ 42 ⟨9, 3, 4⟩ 0 0 2 0 [] 0 0 8).snd
        ⟨7, 8, 9, fun _ => 5, 4, 3, true, [11]⟩).activeUnit = 0 ∧
     (applyTrace (GLXFBEvaluator.EvalPatches
        ⟨⟨1, 0, 1, 2, 3, 4, 5, 6, 7⟩, ⟨2, 0, 1, 2, 3, 4⟩, 13⟩
        0 ⟨0, 3, 4⟩ 42 ⟨9, 3, 4⟩ 0 0 2 0 [] 0 0 8).snd
        ⟨7, 8, 9, fun _ => 5, 4, 3, true, [11]⟩).rasterizerDiscard = false ∧
     (∀ u, u < 3 →
       (applyTrace (GLXFBEvaluator.EvalPatches
          ⟨⟨1, 0, 1, 2, 3, 4, 5, 6, 7⟩, ⟨2, 0, 1, 2, 3, 4⟩, 13⟩
          0 ⟨0, 3, 4⟩ 42 ⟨9, 3, 4⟩ 0 0 2 0 [] 0 0 8).snd
          ⟨7, 8, 9, fun _ => 5, 4, 3, true, [11]⟩).textureBufferBinding u
          = 0) ∧
     (applyTrace (GLXFBEvaluator.EvalPatches
        ⟨⟨1, 0, 1, 2, 3, 4, 5, 6, 7⟩, ⟨2, 0, 1, 2, 3, 4⟩, 13⟩
        0 ⟨0, 3, 4⟩ 42 ⟨9, 3, 4⟩ 0 0 2 0 [] 0 0 8).snd
        ⟨7, 8, 9, fun _ => 5, 4, 3, true, [11]⟩).textureBufferBinding
        (GLState.activeUnit ⟨7, 8, 9, fun _ => 5, 4, 3, true, [11]⟩) = 0 ∧
     (applyTrace (GLXFBEvaluator.EvalPatches
        ⟨⟨1, 0, 1, 2, 3, 4, 5, 6, 7⟩, ⟨2, 0, 1, 2, 3, 4⟩, 13⟩
        0 ⟨0, 3, 4⟩ 42 ⟨9, 3, 4⟩ 0 0 2 0 [] 0 0 8).snd
        ⟨7, 8, 9, fun _ => 5, 4, 3, true, [11]⟩).liveVAOs
        = GLState.liveVAOs ⟨7, 8, 9, fun _ => 5, 4, 3, true, [11]⟩) :=
  C10_eval_restores_gl_state
    ⟨⟨1, 0, 1, 2, 3, 4, 5, 6, 7⟩, ⟨2, 0, 1, 2, 3, 4⟩, 13⟩
    0 ⟨0, 3, 4⟩ 42 ⟨9, 3, 4⟩ 0 0 0 0 2 5 7
    ⟨7, 8, 9, fun _ => 5, 4, 3, true, [11]⟩
    0 0 2 0 [] 0 0 8 ⟨7, 8, 9, fun _ => 5, 4, 3, true, [11]⟩
    (by decide) (by decide) (by decide)

/-- C1 witness: the amended theorem at a concrete evaluator with a compiled
patch kernel and `duBuffer = 1`. -/
theorem C1_evalPatches_derivative_error_witness :
    farErrors (GLXFBEvaluator.EvalPatches
        ⟨⟨0, 0, 0, 0, 0, 0, 0, 0, 0⟩, ⟨3, 0, 0, 0, 0, 0⟩, 0⟩
        0 ⟨0, 0, 1⟩ 0 ⟨0, 0, 1⟩ 1 0 1 0 [] 0 0 7).snd
      = [(FarErrorType.FAR_RUNTIME_ERROR,
          "GLXFBEvaluator doesn't support derivative evaluation yet.\n")] :=
  C1_evalPatches_derivative_error _ 0 _ 0 _ 1 0 1 0 [] 0 0 7
    (by decide) (Or.inl (by decide))

end OsdGLXFB
